import Mathlib

/-!
Verification development for the PayPal MCP server (src/index.ts).

The untrusted caller input is modelled as a JSON-like runtime value `JVal`
(numbers as rationals: the claims only compare numbers, never exercise
floating-point rounding, NaN or infinities).  Each `validateX` function below
is a direct shallow embedding of the corresponding `validateX` method of the
`PayPalServer` class, including its JavaScript quirks:
  - `typeof null` is the string "object" and `typeof` of an array is "object";
  - truthiness: `null`, `false`, `0`, and the empty string are falsy;
  - reading a named property of `null` raises a TypeError (modelled by
    `VErr.typeError`), while reading one of a primitive or an array yields
    `undefined` (modelled by `none`).
Validator failures are `McpError(ErrorCode.InvalidParams, msg)` values.
-/

namespace PaypalMCP

/-- JSON-like runtime values of the untyped tool arguments. -/
inductive JVal where
  | jnull
  | jbool (b : Bool)
  | jnum (q : ℚ)
  | jstr (s : String)
  | jarr (elems : List JVal)
  | jobj (fields : List (String × JVal))

/-- The JavaScript `typeof` operator (note `typeof null` is "object"). -/
def typeofJ : JVal → String
  | .jnull => "object"
  | .jbool _ => "boolean"
  | .jnum _ => "number"
  | .jstr _ => "string"
  | .jarr _ => "object"
  | .jobj _ => "object"

/-- JavaScript truthiness of a value. -/
def truthy : JVal → Bool
  | .jnull => false
  | .jbool b => b
  | .jnum q => q != 0
  | .jstr s => s != ""
  | .jarr _ => true
  | .jobj _ => true

/-- First-match lookup in an object field list (JS objects have unique keys,
    so the position of a binding is irrelevant; first match models it). -/
def lookupF : List (String × JVal) → String → Option JVal
  | [], _ => none
  | (k, v) :: rest, key => if k = key then some v else lookupF rest key

/-- The shared validator entry guard `typeof args === 'object' && args`:
    objects and arrays pass (an array behaves as an object none of whose
    named properties of interest are set), everything else fails. -/
def topFields : JVal → Option (List (String × JVal))
  | .jobj fs => some fs
  | .jarr _ => some []
  | _ => none

/-- Property read `base.key` where `base` is known not to be `null`
    (primitives and arrays yield `undefined` for the keys the code reads). -/
def objProp : JVal → String → Option JVal
  | .jobj fs, key => lookupF fs key
  | _, _ => none

/-- `typeof v === 'string' ? v : undefined` on a possibly-absent value. -/
def asStr : Option JVal → Option String
  | some (.jstr s) => some s
  | _ => none

/-- `typeof v === 'number' ? v : undefined` on a possibly-absent value. -/
def asNum : Option JVal → Option ℚ
  | some (.jnum q) => some q
  | _ => none

/-- `v && typeof v === 'object'` on a possibly-absent value: keeps the value
    only when it is an object or an array (null is falsy). -/
def subObj : Option JVal → Option JVal
  | some x => if truthy x && typeofJ x == "object" then some x else none
  | none => none

/-- Property read through `subObj`-style guards. -/
def optProp (o : Option JVal) (k : String) : Option JVal :=
  o.bind (fun x => objProp x k)

/-- Error codes of the MCP protocol errors thrown by the server. -/
inductive ErrCode where
  | invalidParams
  | methodNotFound
  | internalError
deriving DecidableEq

/-- The JSON-RPC numeric code of each `ErrorCode` member used by the source. -/
def ErrCode.num : ErrCode → Int
  | .invalidParams => -32602
  | .methodNotFound => -32601
  | .internalError => -32603

/-- A thrown `McpError(code, msg)`. -/
structure McpErr where
  code : ErrCode
  msg : String
deriving DecidableEq

/-- The `message` property of an `McpError` instance as rendered by the SDK. -/
def mcpMessage (e : McpErr) : String :=
  "MCP error " ++ toString e.code.num ++ ": " ++ e.msg

/-- What a validator can throw: a structured `McpError`, or a JavaScript
    `TypeError` from reading a property of `null`. -/
inductive VErr where
  | mcp (e : McpErr)
  | typeError

/-- `throw new McpError(ErrorCode.InvalidParams, m)`. -/
def invalid (m : String) : VErr := .mcp ⟨.invalidParams, m⟩

/-- `array.map(f)` where `f` may throw: left to right, the first thrown error
    aborts the whole map (this is exactly the JS semantics the source uses). -/
def mapElems (f : JVal → Except VErr α) : List JVal → Except VErr (List α)
  | [] => .ok []
  | x :: xs =>
    match f x with
    | .error e => .error e
    | .ok y =>
      match mapElems f xs with
      | .error e => .error e
      | .ok ys => .ok (y :: ys)

/-! ## Typed payloads (the validated output shapes of src/index.ts) -/

structure CustomerInfo where
  id : String
  email_address : Option String := none

structure CardInfo where
  name : String
  number : String
  expiry : String
  security_code : String

structure PaypalSourceInfo where
  email_address : String
  account_id : Option String := none

structure PaymentSource where
  card : Option CardInfo := none
  paypal : Option PaypalSourceInfo := none

structure PayPalPaymentToken where
  customer : CustomerInfo
  payment_source : PaymentSource

structure TxAmount where
  total : String
  currency : String

structure PayTransaction where
  amount : TxAmount
  description : Option String := none

/-- `funding_instruments` is forwarded by the source with a bare type cast
    (`payer.funding_instruments as ...`), so the validated payer carries the
    raw value unchecked. -/
structure PayerInfo where
  payment_method : String
  funding_instruments : Option JVal := none

structure PayPalPayment where
  intent : String
  payer : PayerInfo
  transactions : List PayTransaction

/-! ## Validators -/

/-- Shallow embedding of `validatePaymentToken`. -/
def validatePaymentToken (args : JVal) : Except VErr PayPalPaymentToken :=
  match topFields args with
  | none => .error (invalid "Invalid payment token data")
  | some token =>
    match lookupF token "customer", lookupF token "payment_source" with
    | some customer, some source =>
      if truthy customer && typeofJ customer == "object"
          && truthy source && typeofJ source == "object" then
        match objProp customer "id" with
        | some (.jstr cid) =>
          .ok { customer := { id := cid
                              email_address := asStr (objProp customer "email_address") }
                payment_source :=
                  { card :=
                      match subObj (objProp source "card") with
                      | some c =>
                        match objProp c "name", objProp c "number",
                              objProp c "expiry", objProp c "security_code" with
                        | some (.jstr cn), some (.jstr num),
                          some (.jstr ex), some (.jstr sc) => some ⟨cn, num, ex, sc⟩
                        | _, _, _, _ => none
                      | none => none
                    paypal :=
                      match subObj (objProp source "paypal") with
                      | some p =>
                        match objProp p "email_address" with
                        | some (.jstr em) =>
                          some { email_address := em
                                 account_id := asStr (objProp p "account_id") }
                        | _ => none
                      | none => none } }
        | _ => .error (invalid "Invalid customer ID")
      else .error (invalid "Missing required payment token fields")
    | _, _ => .error (invalid "Missing required payment token fields")

/-- One element of `payment.transactions.map(...)` in `validatePayment`
    (property reads on a raw array element: `null` elements raise TypeError). -/
def validateTransaction (t : JVal) : Except VErr PayTransaction :=
  match t with
  | .jnull => .error .typeError
  | t =>
    match objProp t "amount" with
    | some amt =>
      if truthy amt && typeofJ amt == "object" then
        match objProp amt "total", objProp amt "currency" with
        | some (.jstr tot), some (.jstr cur) =>
          .ok { amount := ⟨tot, cur⟩, description := asStr (objProp t "description") }
        | _, _ => .error (invalid "Invalid amount fields")
      else .error (invalid "Invalid transaction amount")
    | none => .error (invalid "Invalid transaction amount")

/-- Shallow embedding of `validatePayment`. -/
def validatePayment (args : JVal) : Except VErr PayPalPayment :=
  match topFields args with
  | none => .error (invalid "Invalid payment data")
  | some payment =>
    match lookupF payment "intent", lookupF payment "payer",
          lookupF payment "transactions" with
    | some (.jstr intent), some payer, some (.jarr txs) =>
      if truthy payer && typeofJ payer == "object" && txs.length != 0 then
        match objProp payer "payment_method" with
        | some (.jstr pm) =>
          match mapElems validateTransaction txs with
          | .error e => .error e
          | .ok transactions =>
            .ok { intent := intent
                  payer := { payment_method := pm
                             funding_instruments := objProp payer "funding_instruments" }
                  transactions := transactions }
        | _ => .error (invalid "Invalid payment method")
      else .error (invalid "Missing required payment fields")
    | _, _, _ => .error (invalid "Missing required payment fields")

structure PayoutAmount where
  value : String
  currency : String

structure PayoutItem where
  recipient_type : String
  amount : PayoutAmount
  receiver : String
  note : Option String := none
  sender_item_id : Option String := none

structure SenderBatchHeader where
  sender_batch_id : String
  email_subject : Option String := none
  recipient_type : Option String := none

structure PayPalPayout where
  sender_batch_header : SenderBatchHeader
  items : List PayoutItem

/-- One element of `payout.items.map(...)` in `validatePayout`. -/
def validatePayoutItem (it : JVal) : Except VErr PayoutItem :=
  match it with
  | .jnull => .error .typeError
  | it =>
    match objProp it "recipient_type", objProp it "amount", objProp it "receiver" with
    | some (.jstr rt), some amt, some (.jstr recv) =>
      if truthy amt && typeofJ amt == "object" then
        match objProp amt "value", objProp amt "currency" with
        | some (.jstr v), some (.jstr c) =>
          .ok { recipient_type := rt
                amount := ⟨v, c⟩
                receiver := recv
                note := asStr (objProp it "note")
                sender_item_id := asStr (objProp it "sender_item_id") }
        | _, _ => .error (invalid "Invalid amount fields")
      else .error (invalid "Invalid payout item")
    | _, _, _ => .error (invalid "Invalid payout item")

/-- Shallow embedding of `validatePayout`. -/
def validatePayout (args : JVal) : Except VErr PayPalPayout :=
  match topFields args with
  | none => .error (invalid "Invalid payout data")
  | some payout =>
    match lookupF payout "sender_batch_header", lookupF payout "items" with
    | some header, some (.jarr items) =>
      if truthy header && typeofJ header == "object" && items.length != 0 then
        match objProp header "sender_batch_id" with
        | some (.jstr sbid) =>
          match mapElems validatePayoutItem items with
          | .error e => .error e
          | .ok vitems =>
            .ok { sender_batch_header :=
                    { sender_batch_id := sbid
                      email_subject := asStr (objProp header "email_subject")
                      recipient_type := asStr (objProp header "recipient_type") }
                  items := vitems }
        | _ => .error (invalid "Invalid sender batch ID")
      else .error (invalid "Missing required payout fields")
    | _, _ => .error (invalid "Missing required payout fields")

structure RefAmount where
  currency_code : String
  value : String

/-- The source builds `processing_state` with
    `typeof ps === 'object' ? (ps as any).status || '' : ''` and
    `typeof ps === 'object' ? (ps as any).reason : undefined`:
    `status` and `reason` carry raw (unchecked) values. -/
structure ProcessingState where
  status : JVal
  reason : Option JVal := none

structure ReferencedPayoutItem where
  item_id : String
  processing_state : ProcessingState
  reference_id : String
  reference_type : String
  payout_amount : RefAmount
  payout_destination : String

structure PayPalReferencedPayout where
  referenced_payouts : List ReferencedPayoutItem

/-- `typeof ps === 'object' ? (ps as any).status || '' : ''` — note that
    `typeof null` is "object", so a `null` processing_state raises a
    TypeError when the source reads `.status` from it. -/
def psStatus (ps : Option JVal) : Except VErr JVal :=
  match ps with
  | some .jnull => .error .typeError
  | some x =>
    if typeofJ x == "object" then
      .ok (match objProp x "status" with
           | some v => if truthy v then v else .jstr ""
           | none => .jstr "")
    else .ok (.jstr "")
  | none => .ok (.jstr "")

/-- `typeof ps === 'object' ? (ps as any).reason : undefined`. -/
def psReason (ps : Option JVal) : Except VErr (Option JVal) :=
  match ps with
  | some .jnull => .error .typeError
  | some x => if typeofJ x == "object" then .ok (objProp x "reason") else .ok none
  | none => .ok none

/-- One element of `payout.referenced_payouts.map(...)` in
    `validateReferencedPayout`; absent `item_id` is defaulted to the empty
    string by the source ternary. -/
def validateRefPayoutItem (r : JVal) : Except VErr ReferencedPayoutItem :=
  match r with
  | .jnull => .error .typeError
  | r =>
    match objProp r "reference_id", objProp r "reference_type",
          objProp r "payout_amount", objProp r "payout_destination" with
    | some (.jstr rid), some (.jstr rty), some pamt, some (.jstr pdest) =>
      if truthy pamt && typeofJ pamt == "object" then
        match objProp pamt "currency_code", objProp pamt "value" with
        | some (.jstr cc), some (.jstr v) =>
          match psStatus (objProp r "processing_state") with
          | .error e => .error e
          | .ok st =>
            match psReason (objProp r "processing_state") with
            | .error e => .error e
            | .ok rsn =>
              .ok { item_id := (asStr (objProp r "item_id")).getD ""
                    processing_state := { status := st, reason := rsn }
                    reference_id := rid
                    reference_type := rty
                    payout_amount := ⟨cc, v⟩
                    payout_destination := pdest }
        | _, _ => .error (invalid "Invalid amount fields")
      else .error (invalid "Invalid referenced payout")
    | _, _, _, _ => .error (invalid "Invalid referenced payout")

/-- Shallow embedding of `validateReferencedPayout`. -/
def validateReferencedPayout (args : JVal) : Except VErr PayPalReferencedPayout :=
  match topFields args with
  | none => .error (invalid "Invalid referenced payout data")
  | some payout =>
    match lookupF payout "referenced_payouts" with
    | some (.jarr (r :: rs)) =>
      match mapElems validateRefPayoutItem (r :: rs) with
      | .error e => .error e
      | .ok rp => .ok { referenced_payouts := rp }
    | _ => .error (invalid "Missing referenced payouts")

structure OrderAmount where
  currency_code : String
  value : String

structure PurchaseUnit where
  amount : OrderAmount
  description : Option String := none
  reference_id : Option String := none

structure PayPalOrder where
  intent : String
  purchase_units : List PurchaseUnit

/-- One element of `order.purchase_units.map(...)` in `validatePayPalOrder`. -/
def validatePurchaseUnit (u : JVal) : Except VErr PurchaseUnit :=
  match u with
  | .jnull => .error .typeError
  | u =>
    match objProp u "amount" with
    | some amt =>
      if truthy amt && typeofJ amt == "object" then
        match objProp amt "currency_code", objProp amt "value" with
        | some (.jstr cc), some (.jstr v) =>
          .ok { amount := ⟨cc, v⟩
                description := asStr (objProp u "description")
                reference_id := asStr (objProp u "reference_id") }
        | _, _ => .error (invalid "Invalid amount fields")
      else .error (invalid "Invalid purchase unit amount")
    | none => .error (invalid "Invalid purchase unit amount")

/-- Shallow embedding of `validatePayPalOrder` (intent must be a member of
    the literal set given to `['CAPTURE','AUTHORIZE'].includes`). -/
def validatePayPalOrder (args : JVal) : Except VErr PayPalOrder :=
  match topFields args with
  | none => .error (invalid "Invalid order data")
  | some order =>
    match lookupF order "intent", lookupF order "purchase_units" with
    | some (.jstr s), some (.jarr units) =>
      if (s == "CAPTURE" || s == "AUTHORIZE") && units.length != 0 then
        match mapElems validatePurchaseUnit units with
        | .error e => .error e
        | .ok pus => .ok { intent := s, purchase_units := pus }
      else .error (invalid "Missing required order fields")
    | _, _ => .error (invalid "Missing required order fields")

structure OwnerName where
  given_name : String
  surname : String

structure IndividualOwner where
  names : List OwnerName

structure BusinessType where
  type : String

structure BusinessEntity where
  business_type : BusinessType
  business_name : String

structure PayPalPartnerReferral where
  individual_owners : List IndividualOwner
  business_entity : BusinessEntity
  email : String

/-- One element of `ownerObj.names.map(...)` in `validatePartnerReferral`. -/
def validateOwnerName (n : JVal) : Except VErr OwnerName :=
  match n with
  | .jnull => .error .typeError
  | n =>
    match objProp n "given_name", objProp n "surname" with
    | some (.jstr g), some (.jstr s) => .ok ⟨g, s⟩
    | _, _ => .error (invalid "Invalid name fields")

/-- One element of `referral.individual_owners.map(...)`. -/
def validateOwner (o : JVal) : Except VErr IndividualOwner :=
  match o with
  | .jnull => .error .typeError
  | o =>
    match objProp o "names" with
    | some (.jarr (n :: ns)) =>
      match mapElems validateOwnerName (n :: ns) with
      | .error e => .error e
      | .ok vns => .ok ⟨vns⟩
    | _ => .error (invalid "Invalid owner names")

/-- Shallow embedding of `validatePartnerReferral` (the `business_entity`
    presence check is truthiness only; its property reads happen later). -/
def validatePartnerReferral (args : JVal) : Except VErr PayPalPartnerReferral :=
  match topFields args with
  | none => .error (invalid "Invalid partner referral data")
  | some referral =>
    match lookupF referral "individual_owners", lookupF referral "business_entity",
          lookupF referral "email" with
    | some (.jarr owners), some business, some (.jstr email) =>
      if truthy business then
        match mapElems validateOwner owners with
        | .error e => .error e
        | .ok ios =>
          match objProp business "business_type", objProp business "business_name" with
          | some btype, some (.jstr bname) =>
            if truthy btype then
              match objProp btype "type" with
              | some (.jstr ty) =>
                .ok { individual_owners := ios
                      business_entity := { business_type := ⟨ty⟩, business_name := bname }
                      email := email }
              | _ => .error (invalid "Invalid business type")
            else .error (invalid "Invalid business entity")
          | _, _ => .error (invalid "Invalid business entity")
      else .error (invalid "Missing required referral fields")
    | _, _, _ => .error (invalid "Missing required referral fields")

structure Presentation where
  brand_name : Option String := none
  logo_image : Option String := none
  locale_code : Option String := none

structure InputFields where
  no_shipping : Option ℚ := none
  address_override : Option ℚ := none

structure FlowConfig where
  landing_page_type : Option String := none
  bank_txn_pending_url : Option String := none

structure PayPalWebProfile where
  name : String
  presentation : Presentation
  input_fields : InputFields
  flow_config : FlowConfig

/-- Shallow embedding of `validateWebProfile`. -/
def validateWebProfile (args : JVal) : Except VErr PayPalWebProfile :=
  match topFields args with
  | none => .error (invalid "Invalid web profile data")
  | some profile =>
    match lookupF profile "name" with
    | some (.jstr nm) =>
      .ok { name := nm
            presentation :=
              { brand_name := asStr (optProp (subObj (lookupF profile "presentation")) "brand_name")
                logo_image := asStr (optProp (subObj (lookupF profile "presentation")) "logo_image")
                locale_code := asStr (optProp (subObj (lookupF profile "presentation")) "locale_code") }
            input_fields :=
              { no_shipping := asNum (optProp (subObj (lookupF profile "input_fields")) "no_shipping")
                address_override := asNum (optProp (subObj (lookupF profile "input_fields")) "address_override") }
            flow_config :=
              { landing_page_type := asStr (optProp (subObj (lookupF profile "flow_config")) "landing_page_type")
                bank_txn_pending_url := asStr (optProp (subObj (lookupF profile "flow_config")) "bank_txn_pending_url") } }
    | _ => .error (invalid "Missing required profile name")

structure PayPalProduct where
  name : String
  description : String
  type : String
  category : String
  image_url : Option String := none
  home_url : Option String := none

/-- Shallow embedding of `validatePayPalProduct` (type must be a member of
    the literal set given to `['PHYSICAL','DIGITAL','SERVICE'].includes`). -/
def validatePayPalProduct (args : JVal) : Except VErr PayPalProduct :=
  match topFields args with
  | none => .error (invalid "Invalid product data")
  | some product =>
    match lookupF product "name", lookupF product "description",
          lookupF product "type", lookupF product "category" with
    | some (.jstr nm), some (.jstr desc), some (.jstr ty), some (.jstr cat) =>
      if ty == "PHYSICAL" || ty == "DIGITAL" || ty == "SERVICE" then
        .ok { name := nm
              description := desc
              type := ty
              category := cat
              image_url := asStr (lookupF product "image_url")
              home_url := asStr (lookupF product "home_url") }
      else .error (invalid "Missing required product fields")
    | _, _, _, _ => .error (invalid "Missing required product fields")

structure Pagination where
  page_size : Option ℚ := none
  page : Option ℚ := none
deriving DecidableEq

/-- Shallow embedding of `validatePaginationParams`: total (never throws);
    out-of-range values are simply not copied (in the source an absent or
    non-object `args` — including `undefined`, whose `typeof` is not
    "object" — returns the empty object). -/
def validatePaginationParams (args : JVal) : Pagination :=
  match topFields args with
  | none => {}
  | some params =>
    { page_size :=
        match lookupF params "page_size" with
        | some (.jnum q) => if 1 ≤ q ∧ q ≤ 100 then some q else none
        | _ => none
      page :=
        match lookupF params "page" with
        | some (.jnum q) => if 1 ≤ q then some q else none
        | _ => none }

structure DisputeParams where
  dispute_id : String
deriving DecidableEq

/-- Shallow embedding of `validateDisputeParams`. -/
def validateDisputeParams (args : JVal) : Except VErr DisputeParams :=
  match topFields args with
  | none => .error (invalid "Invalid dispute ID")
  | some fs =>
    match lookupF fs "dispute_id" with
    | some (.jstr d) => .ok ⟨d⟩
    | _ => .error (invalid "Invalid dispute ID")

structure TokenParams where
  access_token : String
deriving DecidableEq

/-- Shallow embedding of `validateTokenParams`. -/
def validateTokenParams (args : JVal) : Except VErr TokenParams :=
  match topFields args with
  | none => .error (invalid "Invalid access token")
  | some fs =>
    match lookupF fs "access_token" with
    | some (.jstr t) => .ok ⟨t⟩
    | _ => .error (invalid "Invalid access token")

structure InvoiceDetail where
  invoice_number : String
  reference : String
  currency_code : String

structure BillingInfo where
  email_address : String

structure InvoiceRecipient where
  billing_info : BillingInfo

structure UnitAmount where
  currency_code : String
  value : String

structure InvoiceItem where
  name : String
  quantity : String
  unit_amount : UnitAmount

structure PayPalInvoice where
  detail : InvoiceDetail
  primary_recipients : List InvoiceRecipient
  items : List InvoiceItem

/-- One element of `invoice.items.map(...)` in `validatePayPalInvoice`. -/
def validateInvoiceItem (it : JVal) : Except VErr InvoiceItem :=
  match it with
  | .jnull => .error .typeError
  | it =>
    match objProp it "name", objProp it "quantity", objProp it "unit_amount" with
    | some (.jstr n), some (.jstr q), some ua =>
      if truthy ua && typeofJ ua == "object" then
        match objProp ua "currency_code", objProp ua "value" with
        | some (.jstr cc), some (.jstr v) => .ok ⟨n, q, ⟨cc, v⟩⟩
        | _, _ => .error (invalid "Invalid item amount")
      else .error (invalid "Invalid invoice item")
    | _, _, _ => .error (invalid "Invalid invoice item")

/-- Shallow embedding of `validatePayPalInvoice`.  Note the source only
    inspects `primary_recipients[0]` and keeps only that element in the
    output; the remaining elements are never validated. -/
def validatePayPalInvoice (args : JVal) : Except VErr PayPalInvoice :=
  match topFields args with
  | none => .error (invalid "Invalid invoice data")
  | some invoice =>
    match lookupF invoice "detail", lookupF invoice "primary_recipients",
          lookupF invoice "items" with
    | some detail, some (.jarr (r0 :: _)), some (.jarr (i0 :: irest)) =>
      if truthy detail && typeofJ detail == "object" then
        match objProp detail "invoice_number", objProp detail "reference",
              objProp detail "currency_code" with
        | some (.jstr inum), some (.jstr ref), some (.jstr cc) =>
          match r0 with
          | .jnull => .error .typeError
          | r0 =>
            match objProp r0 "billing_info" with
            | some bi =>
              if truthy bi && typeofJ bi == "object" then
                match objProp bi "email_address" with
                | some (.jstr em) =>
                  match mapElems validateInvoiceItem (i0 :: irest) with
                  | .error e => .error e
                  | .ok vitems =>
                    .ok { detail := ⟨inum, ref, cc⟩
                          primary_recipients := [⟨⟨em⟩⟩]
                          items := vitems }
                | _ => .error (invalid "Invalid recipient information")
              else .error (invalid "Invalid recipient information")
            | none => .error (invalid "Invalid recipient information")
        | _, _, _ => .error (invalid "Invalid invoice detail fields")
      else .error (invalid "Missing required invoice fields")
    | _, _, _ => .error (invalid "Missing required invoice fields")

/-! ## Token provider (`getAccessToken`) -/

/-- Outcome of one call to `getAccessToken`: the returned or thrown value,
    the new `this.accessToken` cache, and how many token-endpoint fetches
    the call performed. -/
structure TokenStep where
  result : Except String String
  cache : Option String
  fetches : Nat

/-- Truthiness of the `this.accessToken` field (`null` and the empty string
    are falsy). -/
def tokenTruthy : Option String → Bool
  | some t => t != ""
  | none => false

/-- The fetch-and-store path of `getAccessToken`: the token-endpoint POST is
    performed; on transport failure the thrown axios error (its `message`)
    propagates and the cache is untouched; otherwise the response field
    `access_token` (possibly absent) is assigned to the cache and a falsy
    value makes the call throw "Failed to obtain access token". -/
def fetchAndStore (oldCache : Option String) (fetch : Except String (Option String)) :
    TokenStep :=
  match fetch with
  | .error m => { result := .error m, cache := oldCache, fetches := 1 }
  | .ok tok =>
    if tokenTruthy tok then
      { result := .ok (tok.getD ""), cache := tok, fetches := 1 }
    else
      { result := .error "Failed to obtain access token", cache := tok, fetches := 1 }

/-- Shallow embedding of `getAccessToken`, parameterised by the current
    cache and by the outcome the token endpoint would give if called. -/
def getAccessToken (cache : Option String) (fetch : Except String (Option String)) :
    TokenStep :=
  if tokenTruthy cache then
    { result := .ok (cache.getD ""), cache := cache, fetches := 0 }
  else
    fetchAndStore cache fetch

/-! ## Dispatcher (the `CallToolRequestSchema` handler) -/

/-- Network requests the handler can issue. -/
inductive NetEvent where
  | tokenFetch
  | httpPost (url : String)
  | httpGet (url : String)
deriving DecidableEq

/-- The relevant parts of a thrown axios error. -/
structure AxiosErr where
  message : String
  respMessage : Option String
deriving DecidableEq

/-- What the caller observes: a thrown protocol-level `McpError`, a success
    envelope (the source wraps the upstream body as pretty-printed text; the
    model keeps the body itself), or an `isError` envelope text. -/
inductive ToolOutcome where
  | protocolError (e : McpErr)
  | success (body : JVal)
  | errorEnvelope (text : String)

/-- `error.response?.data?.message || error.message` rendered as the
    envelope text of an upstream failure. -/
def axiosText (ae : AxiosErr) : String :=
  match ae.respMessage with
  | some m => if m != "" then "PayPal API error: " ++ m else "PayPal API error: " ++ ae.message
  | none => "PayPal API error: " ++ ae.message

/-- Folding of the upstream axios call outcome through the handler catch
    block: upstream success becomes a success envelope, an axios error is
    caught and reported (not thrown). -/
def upstreamOutcome (upstream : Except AxiosErr JVal) : ToolOutcome :=
  match upstream with
  | .ok body => .success body
  | .error ae => .errorEnvelope (axiosText ae)

/-- The `catch` block for non-axios exceptions: every such error — including
    the `McpError`s thrown by validators and by the `default` branch — is
    rethrown as `new McpError(ErrorCode.InternalError, err.message)`. -/
def rewrap : VErr → McpErr
  | .mcp e => ⟨.internalError, mcpMessage e⟩
  | .typeError => ⟨.internalError, "TypeError"⟩

def baseUrl : String := "https://api-m.sandbox.paypal.com"

/-- `Number.prototype.toString` restricted to the values the model produces
    (exact on integers, which is all the claims evaluate). -/
def numToString (q : ℚ) : String :=
  if q.den = 1 then toString q.num else toString q

/-- The query string `URLSearchParams` builds in the `list_products` case,
    with the fixed fallbacks of the source. -/
def listProductsQuery (p : Pagination) : String :=
  "page_size=" ++ (match p.page_size with | some q => numToString q | none => "10")
    ++ "&page=" ++ (match p.page with | some q => numToString q | none => "1")

/-- The `switch (request.params.name)` body: validates, performs the one
    upstream call of the branch, and produces the branch result, or
    propagates the thrown error.  `upstream` is the outcome the remote API
    would give to that one call. -/
def dispatch (name : String) (args : JVal) (upstream : Except AxiosErr JVal) :
    Except VErr (ToolOutcome × List NetEvent) :=
  match name with
  | "create_payment_token" =>
    match validatePaymentToken args with
    | .error e => .error e
    | .ok _ => .ok (upstreamOutcome upstream, [.httpPost (baseUrl ++ "/v3/payment-tokens")])
  | "create_payment" =>
    match validatePayment args with
    | .error e => .error e
    | .ok _ => .ok (upstreamOutcome upstream, [.httpPost (baseUrl ++ "/v2/payments/payment")])
  | "create_payout" =>
    match validatePayout args with
    | .error e => .error e
    | .ok _ => .ok (upstreamOutcome upstream, [.httpPost (baseUrl ++ "/v1/payments/payouts")])
  | "create_referenced_payout" =>
    match validateReferencedPayout args with
    | .error e => .error e
    | .ok _ =>
      .ok (upstreamOutcome upstream, [.httpPost (baseUrl ++ "/v1/payments/referenced-payouts")])
  | "create_order" =>
    match validatePayPalOrder args with
    | .error e => .error e
    | .ok _ => .ok (upstreamOutcome upstream, [.httpPost (baseUrl ++ "/v2/checkout/orders")])
  | "create_partner_referral" =>
    match validatePartnerReferral args with
    | .error e => .error e
    | .ok _ =>
      .ok (upstreamOutcome upstream, [.httpPost (baseUrl ++ "/v2/customer/partner-referrals")])
  | "create_web_profile" =>
    match validateWebProfile args with
    | .error e => .error e
    | .ok _ =>
      .ok (upstreamOutcome upstream,
           [.httpPost (baseUrl ++ "/v1/payment-experience/web-profiles")])
  | "create_product" =>
    match validatePayPalProduct args with
    | .error e => .error e
    | .ok _ => .ok (upstreamOutcome upstream, [.httpPost (baseUrl ++ "/v1/catalogs/products")])
  | "list_products" =>
    .ok (upstreamOutcome upstream,
         [.httpGet (baseUrl ++ "/v1/catalogs/products?"
                    ++ listProductsQuery (validatePaginationParams args))])
  | "get_dispute" =>
    match validateDisputeParams args with
    | .error e => .error e
    | .ok d =>
      .ok (upstreamOutcome upstream,
           [.httpGet (baseUrl ++ "/v1/customer/disputes/" ++ d.dispute_id)])
  | "get_userinfo" =>
    match validateTokenParams args with
    | .error e => .error e
    | .ok _ =>
      .ok (upstreamOutcome upstream, [.httpGet (baseUrl ++ "/v1/identity/oauth2/userinfo")])
  | "create_invoice" =>
    match validatePayPalInvoice args with
    | .error e => .error e
    | .ok _ => .ok (upstreamOutcome upstream, [.httpPost (baseUrl ++ "/v2/invoicing/invoices")])
  | _ => .error (.mcp ⟨.methodNotFound, "Unknown tool: " ++ name⟩)

/-- Result of one whole `CallToolRequestSchema` invocation. -/
structure CallResult where
  outcome : ToolOutcome
  cache : Option String
  events : List NetEvent

/-- Shallow embedding of the `CallToolRequestSchema` handler: reject absent
    arguments; acquire the access token (possibly fetching — this happens
    before the tool-name switch); then run the switch under the catch block
    that reports axios errors as envelopes and rethrows everything else as
    `InternalError`.  A failed token acquisition propagates out of the
    handler, which the transport surfaces as an internal protocol error. -/
def handleCallTool (cache : Option String) (name : String) (args : Option JVal)
    (fetch : Except String (Option String)) (upstream : Except AxiosErr JVal) : CallResult :=
  match args with
  | none =>
    { outcome := .protocolError ⟨.invalidParams, "Arguments are required"⟩
      cache := cache, events := [] }
  | some a =>
    let ts := getAccessToken cache fetch
    let fetchEvents : List NetEvent := if ts.fetches = 0 then [] else [.tokenFetch]
    match ts.result with
    | .error m =>
      { outcome := .protocolError ⟨.internalError, m⟩, cache := ts.cache
        events := fetchEvents }
    | .ok _ =>
      match dispatch name a upstream with
      | .ok (outcome, evs) => { outcome := outcome, cache := ts.cache
                                events := fetchEvents ++ evs }
      | .error e => { outcome := .protocolError (rewrap e), cache := ts.cache
                      events := fetchEvents }

/-! ## Claims -/

/-- C1: the claim says a validator failure propagates its InvalidParams
    protocol error unchanged to the caller.  The code disagrees: the
    validator (here `validatePayPalOrder` on the empty object) throws
    `McpError(InvalidParams, ...)`, but the handler catch block catches it
    (it is not an axios error) and rethrows it as
    `McpError(InternalError, err.message)`, so the caller observes
    InternalError, not InvalidParams. -/
theorem c1_validator_error_rewrapped_internal :
    validatePayPalOrder (.jobj []) = .error (invalid "Missing required order fields") ∧
    (handleCallTool none "create_order" (some (.jobj [])) (.ok (some "tok"))
        (.ok .jnull)).outcome
      = .protocolError ⟨.internalError, "MCP error -32602: Missing required order fields"⟩ :=
  ⟨rfl, rfl⟩

/-- C2: the claim says an unregistered tool name yields a
    MethodNotFound-equivalent protocol error.  The code's `default` branch
    does throw `McpError(MethodNotFound, ...)`, but that throw happens
    inside the `try`, so the catch block rewraps it and the caller observes
    `InternalError` instead. -/
theorem c2_unknown_tool_rewrapped_internal :
    dispatch "nonexistent_tool" (.jobj []) (.ok .jnull)
      = .error (.mcp ⟨.methodNotFound, "Unknown tool: nonexistent_tool"⟩) ∧
    (handleCallTool none "nonexistent_tool" (some (.jobj [])) (.ok (some "tok"))
        (.ok .jnull)).outcome
      = .protocolError ⟨.internalError, "MCP error -32601: Unknown tool: nonexistent_tool"⟩ :=
  ⟨rfl, rfl⟩

/-- C3 counterexample: on a fresh process (empty token cache), a
    `get_dispute` call with arguments lacking `dispute_id` performs the
    token-endpoint network fetch before the validation failure, because the
    handler awaits `getAccessToken()` before the tool switch.  So a network
    request does precede the validation failure, contrary to the claim. -/
theorem c3_counterexample_token_fetch_precedes_validation :
    (handleCallTool none "get_dispute" (some (.jobj [])) (.ok (some "tok"))
        (.ok .jnull)).events = [.tokenFetch] ∧
    validateDisputeParams (.jobj []) = .error (invalid "Invalid dispute ID") ∧
    (handleCallTool none "get_dispute" (some (.jobj [])) (.ok (some "tok"))
        (.ok .jnull)).outcome
      = .protocolError ⟨.internalError, "MCP error -32602: Invalid dispute ID"⟩ :=
  ⟨rfl, rfl, rfl⟩

/-- C3 (amended): a `get_dispute` call whose arguments lack a string
    `dispute_id` never reaches the dispute lookup endpoint — the only
    network request it can perform is the access-token fetch, which the
    handler runs before validation — and it always fails with a protocol
    error. -/
theorem c3_get_dispute_no_dispute_call (cache : Option String)
    (fetch : Except String (Option String)) (upstream : Except AxiosErr JVal) :
    (∀ e ∈ (handleCallTool cache "get_dispute" (some (.jobj [])) fetch upstream).events,
        e = NetEvent.tokenFetch) ∧
    ∃ m, (handleCallTool cache "get_dispute" (some (.jobj [])) fetch upstream).outcome
        = .protocolError ⟨.internalError, m⟩ := by
  have hdisp : dispatch "get_dispute" (.jobj []) upstream
      = .error (invalid "Invalid dispute ID") := rfl
  simp only [handleCallTool, hdisp]
  constructor
  · intro e he
    split at he <;>
      simp only at he <;>
      · split at he <;> simp_all
  · split
    · exact ⟨_, rfl⟩
    · exact ⟨_, rfl⟩

/-- C5: the first `getAccessToken` call (empty cache) performs exactly one
    token fetch and stores the fetched (truthy) token; every later call
    performs zero fetches, returns the identical cached value, and leaves
    the cache unchanged regardless of what the network would answer. -/
theorem c5_token_cached_single_fetch (t : String) (h : t ≠ "") :
    getAccessToken none (.ok (some t))
      = { result := .ok t, cache := some t, fetches := 1 } ∧
    ∀ fetch2, getAccessToken (some t) fetch2
      = { result := .ok t, cache := some t, fetches := 0 } := by
  constructor
  · simp [getAccessToken, fetchAndStore, tokenTruthy, h]
  · intro fetch2
    simp [getAccessToken, tokenTruthy, h]

/-- C5 witness: concrete instance of `c5_token_cached_single_fetch`. -/
theorem c5_witness :
    getAccessToken none (.ok (some "tok"))
      = { result := .ok "tok", cache := some "tok", fetches := 1 } ∧
    getAccessToken (some "tok") (.error "network down")
      = { result := .ok "tok", cache := some "tok", fetches := 0 } :=
  ⟨(c5_token_cached_single_fetch "tok" (by decide)).1,
   (c5_token_cached_single_fetch "tok" (by decide)).2 (.error "network down")⟩

/-- Adding a binding under a different name does not change a lookup. -/
theorem lookupF_cons_ne (fs : List (String × JVal)) (k key : String) (v : JVal)
    (h : k ≠ key) : lookupF ((k, v) :: fs) key = lookupF fs key := by
  simp [lookupF, h]

/-- C4: sanitizing projection — for every validator, adding a top-level
    field whose name the validator does not recognize leaves the whole
    validation result (hence the validated output) unchanged. -/
theorem c4_unknown_field_projection :
    (∀ fs k v, k ∉ ["customer", "payment_source"] →
      validatePaymentToken (.jobj ((k, v) :: fs)) = validatePaymentToken (.jobj fs)) ∧
    (∀ fs k v, k ∉ ["intent", "payer", "transactions"] →
      validatePayment (.jobj ((k, v) :: fs)) = validatePayment (.jobj fs)) ∧
    (∀ fs k v, k ∉ ["sender_batch_header", "items"] →
      validatePayout (.jobj ((k, v) :: fs)) = validatePayout (.jobj fs)) ∧
    (∀ fs k v, k ∉ ["referenced_payouts"] →
      validateReferencedPayout (.jobj ((k, v) :: fs)) = validateReferencedPayout (.jobj fs)) ∧
    (∀ fs k v, k ∉ ["intent", "purchase_units"] →
      validatePayPalOrder (.jobj ((k, v) :: fs)) = validatePayPalOrder (.jobj fs)) ∧
    (∀ fs k v, k ∉ ["individual_owners", "business_entity", "email"] →
      validatePartnerReferral (.jobj ((k, v) :: fs)) = validatePartnerReferral (.jobj fs)) ∧
    (∀ fs k v, k ∉ ["name", "presentation", "input_fields", "flow_config"] →
      validateWebProfile (.jobj ((k, v) :: fs)) = validateWebProfile (.jobj fs)) ∧
    (∀ fs k v, k ∉ ["name", "description", "type", "category", "image_url", "home_url"] →
      validatePayPalProduct (.jobj ((k, v) :: fs)) = validatePayPalProduct (.jobj fs)) ∧
    (∀ fs k v, k ∉ ["page_size", "page"] →
      validatePaginationParams (.jobj ((k, v) :: fs)) = validatePaginationParams (.jobj fs)) ∧
    (∀ fs k v, k ∉ ["dispute_id"] →
      validateDisputeParams (.jobj ((k, v) :: fs)) = validateDisputeParams (.jobj fs)) ∧
    (∀ fs k v, k ∉ ["access_token"] →
      validateTokenParams (.jobj ((k, v) :: fs)) = validateTokenParams (.jobj fs)) ∧
    (∀ fs k v, k ∉ ["detail", "primary_recipients", "items"] →
      validatePayPalInvoice (.jobj ((k, v) :: fs)) = validatePayPalInvoice (.jobj fs)) := by
  refine ⟨?_, ?_, ?_, ?_, ?_, ?_, ?_, ?_, ?_, ?_, ?_, ?_⟩
  · intro fs k v hk
    have h1 := lookupF_cons_ne fs k "customer" v (by rintro rfl; simp at hk)
    have h2 := lookupF_cons_ne fs k "payment_source" v (by rintro rfl; simp at hk)
    simp only [validatePaymentToken, topFields, h1, h2]
  · intro fs k v hk
    have h1 := lookupF_cons_ne fs k "intent" v (by rintro rfl; simp at hk)
    have h2 := lookupF_cons_ne fs k "payer" v (by rintro rfl; simp at hk)
    have h3 := lookupF_cons_ne fs k "transactions" v (by rintro rfl; simp at hk)
    simp only [validatePayment, topFields, h1, h2, h3]
  · intro fs k v hk
    have h1 := lookupF_cons_ne fs k "sender_batch_header" v (by rintro rfl; simp at hk)
    have h2 := lookupF_cons_ne fs k "items" v (by rintro rfl; simp at hk)
    simp only [validatePayout, topFields, h1, h2]
  · intro fs k v hk
    have h1 := lookupF_cons_ne fs k "referenced_payouts" v (by rintro rfl; simp at hk)
    simp only [validateReferencedPayout, topFields, h1]
  · intro fs k v hk
    have h1 := lookupF_cons_ne fs k "intent" v (by rintro rfl; simp at hk)
    have h2 := lookupF_cons_ne fs k "purchase_units" v (by rintro rfl; simp at hk)
    simp only [validatePayPalOrder, topFields, h1, h2]
  · intro fs k v hk
    have h1 := lookupF_cons_ne fs k "individual_owners" v (by rintro rfl; simp at hk)
    have h2 := lookupF_cons_ne fs k "business_entity" v (by rintro rfl; simp at hk)
    have h3 := lookupF_cons_ne fs k "email" v (by rintro rfl; simp at hk)
    simp only [validatePartnerReferral, topFields, h1, h2, h3]
  · intro fs k v hk
    have h1 := lookupF_cons_ne fs k "name" v (by rintro rfl; simp at hk)
    have h2 := lookupF_cons_ne fs k "presentation" v (by rintro rfl; simp at hk)
    have h3 := lookupF_cons_ne fs k "input_fields" v (by rintro rfl; simp at hk)
    have h4 := lookupF_cons_ne fs k "flow_config" v (by rintro rfl; simp at hk)
    simp only [validateWebProfile, topFields, h1, h2, h3, h4]
  · intro fs k v hk
    have h1 := lookupF_cons_ne fs k "name" v (by rintro rfl; simp at hk)
    have h2 := lookupF_cons_ne fs k "description" v (by rintro rfl; simp at hk)
    have h3 := lookupF_cons_ne fs k "type" v (by rintro rfl; simp at hk)
    have h4 := lookupF_cons_ne fs k "category" v (by rintro rfl; simp at hk)
    have h5 := lookupF_cons_ne fs k "image_url" v (by rintro rfl; simp at hk)
    have h6 := lookupF_cons_ne fs k "home_url" v (by rintro rfl; simp at hk)
    simp only [validatePayPalProduct, topFields, h1, h2, h3, h4, h5, h6]
  · intro fs k v hk
    have h1 := lookupF_cons_ne fs k "page_size" v (by rintro rfl; simp at hk)
    have h2 := lookupF_cons_ne fs k "page" v (by rintro rfl; simp at hk)
    simp only [validatePaginationParams, topFields, h1, h2]
  · intro fs k v hk
    have h1 := lookupF_cons_ne fs k "dispute_id" v (by rintro rfl; simp at hk)
    simp only [validateDisputeParams, topFields, h1]
  · intro fs k v hk
    have h1 := lookupF_cons_ne fs k "access_token" v (by rintro rfl; simp at hk)
    simp only [validateTokenParams, topFields, h1]
  · intro fs k v hk
    have h1 := lookupF_cons_ne fs k "detail" v (by rintro rfl; simp at hk)
    have h2 := lookupF_cons_ne fs k "primary_recipients" v (by rintro rfl; simp at hk)
    have h3 := lookupF_cons_ne fs k "items" v (by rintro rfl; simp at hk)
    simp only [validatePayPalInvoice, topFields, h1, h2, h3]

/-- C4 witness: concrete instances of `c4_unknown_field_projection` with an
    unrecognized field "smuggled" added to an input. -/
theorem c4_witness :
    validatePaymentToken (.jobj [("smuggled", .jstr "x")])
      = validatePaymentToken (.jobj []) ∧
    validatePayPalOrder (.jobj [("smuggled", .jnum 1),
        ("intent", .jstr "CAPTURE"),
        ("purchase_units", .jarr [.jobj [("amount",
          .jobj [("currency_code", .jstr "USD"), ("value", .jstr "10.00")])]])])
      = validatePayPalOrder (.jobj [("intent", .jstr "CAPTURE"),
        ("purchase_units", .jarr [.jobj [("amount",
          .jobj [("currency_code", .jstr "USD"), ("value", .jstr "10.00")])]])]) :=
  ⟨c4_unknown_field_projection.1 [] "smuggled" (.jstr "x") (by decide),
   c4_unknown_field_projection.2.2.2.2.1 _ "smuggled" (.jnum 1) (by decide)⟩

/-- C6: the pagination validator is total (it returns instead of throwing):
    any non-object or falsy input gives the empty result; a numeric
    page_size outside [1,100] is dropped (not clamped); a page below 1 is
    dropped; and with both fields absent from the validated result the
    list_products request uses the fixed query fallbacks page_size=10 and
    page=1. -/
theorem c6_pagination_validator :
    (∀ v, topFields v = none → validatePaginationParams v = {}) ∧
    (∀ fs q, lookupF fs "page_size" = some (.jnum q) → ¬(1 ≤ q ∧ q ≤ 100) →
      (validatePaginationParams (.jobj fs)).page_size = none) ∧
    (∀ fs q, lookupF fs "page" = some (.jnum q) → q < 1 →
      (validatePaginationParams (.jobj fs)).page = none) ∧
    listProductsQuery {} = "page_size=10&page=1" ∧
    (∀ upstream, dispatch "list_products" (.jobj [("page_size", .jnum 500)]) upstream
      = .ok (upstreamOutcome upstream,
          [.httpGet (baseUrl ++ "/v1/catalogs/products?page_size=10&page=1")])) := by
  refine ⟨?_, ?_, ?_, rfl, ?_⟩
  · intro v hv
    simp [validatePaginationParams, hv]
  · intro fs q hq hrange
    simp [validatePaginationParams, topFields, hq, hrange]
  · intro fs q hq hlt
    simp [validatePaginationParams, topFields, hq, not_le.mpr hlt]
  · intro upstream
    rfl

/-- C6 witness: concrete instances of `c6_pagination_validator` (garbage
    input, the out-of-range page_size of the spec example, and a page below
    one). -/
theorem c6_witness :
    validatePaginationParams (.jstr "garbage") = {} ∧
    (validatePaginationParams (.jobj [("page_size", .jnum 500)])).page_size = none ∧
    (validatePaginationParams (.jobj [("page", .jnum 0)])).page = none :=
  ⟨c6_pagination_validator.1 _ rfl,
   c6_pagination_validator.2.1 _ 500 rfl (by norm_num),
   c6_pagination_validator.2.2.1 _ 0 rfl (by norm_num)⟩

/-- C7: enum-constrained fields — a create_order intent that is a string
    outside {CAPTURE, AUTHORIZE} always fails with the InvalidParams error
    of the combined required-fields check, and a member of the set passes
    into the output unchanged; likewise for create_product type over
    {PHYSICAL, DIGITAL, SERVICE}. -/
theorem c7_enum_membership :
    (∀ fs s, lookupF fs "intent" = some (.jstr s) →
        s ≠ "CAPTURE" → s ≠ "AUTHORIZE" →
        validatePayPalOrder (.jobj fs) = .error (invalid "Missing required order fields")) ∧
    (∀ s cc val, s = "CAPTURE" ∨ s = "AUTHORIZE" →
        validatePayPalOrder (.jobj [("intent", .jstr s),
          ("purchase_units", .jarr [.jobj [("amount",
            .jobj [("currency_code", .jstr cc), ("value", .jstr val)])]])])
        = .ok { intent := s, purchase_units := [{ amount := ⟨cc, val⟩ }] }) ∧
    (∀ fs ty, lookupF fs "type" = some (.jstr ty) →
        ty ≠ "PHYSICAL" → ty ≠ "DIGITAL" → ty ≠ "SERVICE" →
        validatePayPalProduct (.jobj fs)
        = .error (invalid "Missing required product fields")) ∧
    (∀ ty nm desc cat, ty = "PHYSICAL" ∨ ty = "DIGITAL" ∨ ty = "SERVICE" →
        validatePayPalProduct (.jobj [("name", .jstr nm), ("description", .jstr desc),
          ("type", .jstr ty), ("category", .jstr cat)])
        = .ok { name := nm, description := desc, type := ty, category := cat }) := by
  refine ⟨?_, ?_, ?_, ?_⟩
  · intro fs s h1 h2 h3
    simp only [validatePayPalOrder, topFields, h1]
    split
    · rename_i heq _
      injection heq with heq'
      injection heq' with heq''
      subst heq''
      simp [h2, h3]
    · rfl
  · rintro s cc val (rfl | rfl) <;> rfl
  · intro fs ty h1 h2 h3 h4
    simp only [validatePayPalProduct, topFields, h1]
    split
    · rename_i heq _
      injection heq with heq'
      injection heq' with heq''
      subst heq''
      simp [h2, h3, h4]
    · rfl
  · rintro ty nm desc cat (rfl | rfl | rfl) <;> rfl

/-- C7 witness: concrete instances of `c7_enum_membership` (the REFUND
    example of the spec fails; CAPTURE and PHYSICAL pass unchanged). -/
theorem c7_witness :
    validatePayPalOrder (.jobj [("intent", .jstr "REFUND"),
        ("purchase_units", .jarr [.jobj [("amount",
          .jobj [("currency_code", .jstr "USD"), ("value", .jstr "10.00")])]])])
      = .error (invalid "Missing required order fields") ∧
    validatePayPalOrder (.jobj [("intent", .jstr "CAPTURE"),
        ("purchase_units", .jarr [.jobj [("amount",
          .jobj [("currency_code", .jstr "USD"), ("value", .jstr "10.00")])]])])
      = .ok { intent := "CAPTURE", purchase_units := [{ amount := ⟨"USD", "10.00"⟩ }] } ∧
    validatePayPalProduct (.jobj [("name", .jstr "n"), ("description", .jstr "d"),
        ("type", .jstr "VIRTUAL"), ("category", .jstr "c")])
      = .error (invalid "Missing required product fields") ∧
    validatePayPalProduct (.jobj [("name", .jstr "n"), ("description", .jstr "d"),
        ("type", .jstr "PHYSICAL"), ("category", .jstr "c")])
      = .ok { name := "n", description := "d", type := "PHYSICAL", category := "c" } :=
  ⟨c7_enum_membership.1 _ "REFUND" rfl (by decide) (by decide),
   c7_enum_membership.2.1 "CAPTURE" "USD" "10.00" (Or.inl rfl),
   c7_enum_membership.2.2.1 _ "VIRTUAL" rfl (by decide) (by decide) (by decide),
   c7_enum_membership.2.2.2 "PHYSICAL" "n" "d" "c" (Or.inl rfl)⟩

theorem asStr_none : asStr none = none := rfl

theorem asNum_none : asNum none = none := rfl

theorem subObj_none : subObj none = none := rfl

theorem asStr_str (s : String) : asStr (some (.jstr s)) = some s := rfl

theorem subObj_obj (fs : List (String × JVal)) :
    subObj (some (.jobj fs)) = some (.jobj fs) := rfl

/-- C8 counterexample: `validatePayment` copies `payer.funding_instruments`
    into the validated output with a bare cast and no type check, so a
    wrong-typed value (here the number 42) appears in the output instead of
    being treated as absent — refuting the claim that every wrong-typed
    optional field is silently dropped. -/
theorem c8_counterexample_funding_instruments_passthrough :
    validatePayment (.jobj [("intent", .jstr "sale"),
      ("payer", .jobj [("payment_method", .jstr "credit_card"),
                       ("funding_instruments", .jnum 42)]),
      ("transactions", .jarr [.jobj [("amount",
        .jobj [("total", .jstr "1.00"), ("currency", .jstr "USD")])]])])
    = .ok { intent := "sale"
            payer := { payment_method := "credit_card"
                       funding_instruments := some (.jnum 42) }
            transactions := [{ amount := ⟨"1.00", "USD"⟩ }] } := rfl

/-- C8 (amended): a wrong-typed optional field is treated as absent
    (silently dropped, never an error) for every optional field of the
    validators *except* create_payment's `payer.funding_instruments` and
    create_referenced_payout's `processing_state.reason`, which are copied
    into the validated output unchecked whatever their runtime type.
    `v` is an arbitrary wrong-typed value: not a string (`hs`), not a
    number (`hn`), and not a non-null object or array (`ho`). -/
theorem c8_optional_field_policy (v : JVal)
    (hs : asStr (some v) = none) (hn : asNum (some v) = none)
    (ho : subObj (some v) = none) :
    (∀ cid, validatePaymentToken (.jobj [("customer",
        .jobj [("id", .jstr cid), ("email_address", v)]),
        ("payment_source", .jobj [])])
      = .ok { customer := { id := cid }, payment_source := {} }) ∧
    (∀ cid, validatePaymentToken (.jobj [("customer", .jobj [("id", .jstr cid)]),
        ("payment_source", .jobj [("card", v), ("paypal", v)])])
      = .ok { customer := { id := cid }, payment_source := {} }) ∧
    (∀ cid em, validatePaymentToken (.jobj [("customer", .jobj [("id", .jstr cid)]),
        ("payment_source", .jobj [("paypal",
          .jobj [("email_address", .jstr em), ("account_id", v)])])])
      = .ok { customer := { id := cid },
              payment_source := { paypal := some { email_address := em } } }) ∧
    (∀ intent pm tot cur, validatePayment (.jobj [("intent", .jstr intent),
        ("payer", .jobj [("payment_method", .jstr pm)]),
        ("transactions", .jarr [.jobj [("amount",
          .jobj [("total", .jstr tot), ("currency", .jstr cur)]),
          ("description", v)]])])
      = .ok { intent := intent, payer := { payment_method := pm },
              transactions := [{ amount := ⟨tot, cur⟩ }] }) ∧
    (∀ sbid rt val cur recv, validatePayout (.jobj [("sender_batch_header",
        .jobj [("sender_batch_id", .jstr sbid), ("email_subject", v),
               ("recipient_type", v)]),
        ("items", .jarr [.jobj [("recipient_type", .jstr rt),
          ("amount", .jobj [("value", .jstr val), ("currency", .jstr cur)]),
          ("receiver", .jstr recv), ("note", v), ("sender_item_id", v)]])])
      = .ok { sender_batch_header := { sender_batch_id := sbid },
              items := [{ recipient_type := rt, amount := ⟨val, cur⟩,
                          receiver := recv }] }) ∧
    (∀ cc val, validatePayPalOrder (.jobj [("intent", .jstr "CAPTURE"),
        ("purchase_units", .jarr [.jobj [("amount",
          .jobj [("currency_code", .jstr cc), ("value", .jstr val)]),
          ("description", v), ("reference_id", v)]])])
      = .ok { intent := "CAPTURE", purchase_units := [{ amount := ⟨cc, val⟩ }] }) ∧
    (∀ nm desc cat, validatePayPalProduct (.jobj [("name", .jstr nm),
        ("description", .jstr desc), ("type", .jstr "PHYSICAL"),
        ("category", .jstr cat), ("image_url", v), ("home_url", v)])
      = .ok { name := nm, description := desc, type := "PHYSICAL",
              category := cat }) ∧
    (∀ nm, validateWebProfile (.jobj [("name", .jstr nm), ("presentation", v),
        ("input_fields", v), ("flow_config", v)])
      = .ok { name := nm, presentation := {}, input_fields := {},
              flow_config := {} }) ∧
    (∀ nm, validateWebProfile (.jobj [("name", .jstr nm),
        ("presentation", .jobj [("brand_name", v), ("logo_image", v),
                                ("locale_code", v)]),
        ("input_fields", .jobj [("no_shipping", v), ("address_override", v)]),
        ("flow_config", .jobj [("landing_page_type", v),
                               ("bank_txn_pending_url", v)])])
      = .ok { name := nm, presentation := {}, input_fields := {},
              flow_config := {} }) ∧
    (∀ (w : JVal) intent pm tot cur, validatePayment (.jobj [("intent", .jstr intent),
        ("payer", .jobj [("payment_method", .jstr pm), ("funding_instruments", w)]),
        ("transactions", .jarr [.jobj [("amount",
          .jobj [("total", .jstr tot), ("currency", .jstr cur)])]])])
      = .ok { intent := intent,
              payer := { payment_method := pm, funding_instruments := some w },
              transactions := [{ amount := ⟨tot, cur⟩ }] }) ∧
    (∀ (w : JVal) rid rty cc val pd, validateReferencedPayout
        (.jobj [("referenced_payouts", .jarr [.jobj [("reference_id", .jstr rid),
          ("reference_type", .jstr rty),
          ("payout_amount", .jobj [("currency_code", .jstr cc), ("value", .jstr val)]),
          ("payout_destination", .jstr pd),
          ("processing_state", .jobj [("status", .jstr "DONE"), ("reason", w)])]])])
      = .ok { referenced_payouts := [{
                item_id := "",
                processing_state := { status := .jstr "DONE", reason := some w },
                reference_id := rid, reference_type := rty,
                payout_amount := ⟨cc, val⟩, payout_destination := pd }] }) := by
  refine ⟨?_, ?_, ?_, ?_, ?_, ?_, ?_, ?_, ?_, ?_, ?_⟩
  · intro cid
    simp [validatePaymentToken, topFields, lookupF, objProp, truthy, typeofJ,
          asStr_none, subObj_none, hs]
  · intro cid
    simp [validatePaymentToken, topFields, lookupF, objProp, truthy, typeofJ,
          asStr_none, subObj_none, ho]
  · intro cid em
    simp [validatePaymentToken, topFields, lookupF, objProp, truthy, typeofJ,
          asStr_none, subObj_none, subObj_obj, asStr_str, hs]
  · intro intent pm tot cur
    simp [validatePayment, validateTransaction, mapElems, topFields, lookupF,
          objProp, truthy, typeofJ, asStr_none, hs]
  · intro sbid rt val cur recv
    simp [validatePayout, validatePayoutItem, mapElems, topFields, lookupF,
          objProp, truthy, typeofJ, asStr_none, hs]
  · intro cc val
    simp [validatePayPalOrder, validatePurchaseUnit, mapElems, topFields, lookupF,
          objProp, truthy, typeofJ, asStr_none, hs]
  · intro nm desc cat
    simp [validatePayPalProduct, topFields, lookupF, asStr_none, hs]
  · intro nm
    simp [validateWebProfile, topFields, lookupF, optProp, asStr_none, asNum_none,
          subObj_none, ho]
  · intro nm
    simp [validateWebProfile, topFields, lookupF, optProp, objProp, subObj_obj,
          asStr_none, asNum_none, hs, hn]
  · intro w intent pm tot cur
    rfl
  · intro w rid rty cc val pd
    rfl

/-- C8 witness: `c8_optional_field_policy` instantiated at the wrong-typed
    value `true` (a boolean, neither string, number, nor object). -/
theorem c8_witness :
    validatePayout (.jobj [("sender_batch_header",
        .jobj [("sender_batch_id", .jstr "b1"), ("email_subject", .jbool true),
               ("recipient_type", .jbool true)]),
        ("items", .jarr [.jobj [("recipient_type", .jstr "EMAIL"),
          ("amount", .jobj [("value", .jstr "1"), ("currency", .jstr "USD")]),
          ("receiver", .jstr "a@b.c"), ("note", .jbool true),
          ("sender_item_id", .jbool true)]])])
      = .ok { sender_batch_header := { sender_batch_id := "b1" },
              items := [{ recipient_type := "EMAIL", amount := ⟨"1", "USD"⟩,
                          receiver := "a@b.c" }] } :=
  (c8_optional_field_policy (.jbool true) rfl rfl rfl).2.2.2.2.1 "b1" "EMAIL" "1"
    "USD" "a@b.c"

/-- If a throwing map over an array succeeds, every element was validated
    and its validated form is in the result. -/
theorem mapElems_ok_mem {α : Type} {f : JVal → Except VErr α} {l : List JVal}
    {res : List α} (h : mapElems f l = .ok res) {x : JVal} (hx : x ∈ l) :
    ∃ y, f x = .ok y ∧ y ∈ res := by
  induction l generalizing res with
  | nil => cases hx
  | cons a as ih =>
    rw [mapElems] at h
    rcases hfa : f a with e | y <;> rw [hfa] at h
    · cases h
    · rcases hmas : mapElems f as with e | ys <;> rw [hmas] at h
      · cases h
      · injection h with h2
        subst h2
        rw [List.mem_cons] at hx
        rcases hx with rfl | hx2
        · exact ⟨y, hfa, List.mem_cons_self _ _⟩
        · obtain ⟨y2, hy2, hy2m⟩ := ih hmas hx2
          exact ⟨y2, hy2, List.mem_cons_of_mem _ hy2m⟩

/-- C9 counterexample: `validatePayPalInvoice` inspects only
    `primary_recipients[0]`; a second, arbitrarily malformed recipient
    (here the string "garbage") does not fail the call — the call succeeds
    and the element is silently dropped from the output, refuting the
    claim that every element of a required nested array is validated and
    that any element failure fails the whole call. -/
theorem c9_counterexample_second_recipient_ignored :
    validatePayPalInvoice (.jobj [
      ("detail", .jobj [("invoice_number", .jstr "1"), ("reference", .jstr "r"),
                        ("currency_code", .jstr "USD")]),
      ("primary_recipients", .jarr [
        .jobj [("billing_info", .jobj [("email_address", .jstr "a@b.c")])],
        .jstr "garbage"]),
      ("items", .jarr [.jobj [("name", .jstr "x"), ("quantity", .jstr "1"),
        ("unit_amount", .jobj [("currency_code", .jstr "USD"), ("value", .jstr "2")])]])])
    = .ok { detail := ⟨"1", "r", "USD"⟩
            primary_recipients := [⟨⟨"a@b.c"⟩⟩]
            items := [⟨"x", "1", ⟨"USD", "2"⟩⟩] } := rfl

/-- C9 (amended): nested arrays are validated element-by-element with
    all-or-nothing semantics (whenever validation succeeds, every element
    was itself validated and its validated form is in the output) for
    payout items, payment transactions, invoice items and referral
    individual owners — but *not* for create_invoice's primary_recipients,
    of which only the first element is validated and kept; all later
    elements are ignored unvalidated. -/
theorem c9_nested_array_all_or_nothing :
    (∀ (sbid : String) (items : List JVal) (x : JVal) (res : PayPalPayout),
      x ∈ items →
      validatePayout (.jobj [("sender_batch_header",
          .jobj [("sender_batch_id", .jstr sbid)]), ("items", .jarr items)])
        = .ok res →
      ∃ y, validatePayoutItem x = .ok y ∧ y ∈ res.items) ∧
    (∀ (intent pm : String) (txs : List JVal) (x : JVal) (res : PayPalPayment),
      x ∈ txs →
      validatePayment (.jobj [("intent", .jstr intent),
          ("payer", .jobj [("payment_method", .jstr pm)]),
          ("transactions", .jarr txs)]) = .ok res →
      ∃ y, validateTransaction x = .ok y ∧ y ∈ res.transactions) ∧
    (∀ (inum ref cc em : String) (i0 : JVal) (irest : List JVal) (x : JVal)
        (res : PayPalInvoice),
      x ∈ i0 :: irest →
      validatePayPalInvoice (.jobj [
          ("detail", .jobj [("invoice_number", .jstr inum), ("reference", .jstr ref),
                            ("currency_code", .jstr cc)]),
          ("primary_recipients", .jarr [.jobj [("billing_info",
            .jobj [("email_address", .jstr em)])]]),
          ("items", .jarr (i0 :: irest))]) = .ok res →
      ∃ y, validateInvoiceItem x = .ok y ∧ y ∈ res.items) ∧
    (∀ (ty bn em : String) (owners : List JVal) (x : JVal)
        (res : PayPalPartnerReferral),
      x ∈ owners →
      validatePartnerReferral (.jobj [("individual_owners", .jarr owners),
          ("business_entity", .jobj [("business_type", .jobj [("type", .jstr ty)]),
                                     ("business_name", .jstr bn)]),
          ("email", .jstr em)]) = .ok res →
      ∃ y, validateOwner x = .ok y ∧ y ∈ res.individual_owners) ∧
    (∀ (em inum ref cc itn itq itcc itv : String) (rest : List JVal),
      validatePayPalInvoice (.jobj [
          ("detail", .jobj [("invoice_number", .jstr inum), ("reference", .jstr ref),
                            ("currency_code", .jstr cc)]),
          ("primary_recipients", .jarr (.jobj [("billing_info",
            .jobj [("email_address", .jstr em)])] :: rest)),
          ("items", .jarr [.jobj [("name", .jstr itn), ("quantity", .jstr itq),
            ("unit_amount", .jobj [("currency_code", .jstr itcc),
                                   ("value", .jstr itv)])]])])
        = .ok { detail := ⟨inum, ref, cc⟩
                primary_recipients := [⟨⟨em⟩⟩]
                items := [⟨itn, itq, ⟨itcc, itv⟩⟩] }) := by
  refine ⟨?_, ?_, ?_, ?_, ?_⟩
  · intro sbid items x res hx hok
    have hne : (items.length != 0) = true := by
      simp only [bne_iff_ne, ne_eq, List.length_eq_zero]
      exact List.ne_nil_of_mem hx
    simp [validatePayout, topFields, lookupF, objProp, truthy, typeofJ, hne] at hok
    rcases hm : mapElems validatePayoutItem items with e | vitems <;> rw [hm] at hok
    · cases hok
    · obtain ⟨y, hy, hmem⟩ := mapElems_ok_mem hm hx
      refine ⟨y, hy, ?_⟩
      simp only [Except.ok.injEq] at hok
      subst hok
      exact hmem
  · intro intent pm txs x res hx hok
    have hne : (txs.length != 0) = true := by
      simp only [bne_iff_ne, ne_eq, List.length_eq_zero]
      exact List.ne_nil_of_mem hx
    simp [validatePayment, topFields, lookupF, objProp, truthy, typeofJ, hne] at hok
    rcases hm : mapElems validateTransaction txs with e | vtxs <;> rw [hm] at hok
    · cases hok
    · obtain ⟨y, hy, hmem⟩ := mapElems_ok_mem hm hx
      refine ⟨y, hy, ?_⟩
      simp only [Except.ok.injEq] at hok
      subst hok
      exact hmem
  · intro inum ref cc em i0 irest x res hx hok
    simp [validatePayPalInvoice, topFields, lookupF, objProp, truthy, typeofJ] at hok
    rcases hm : mapElems validateInvoiceItem (i0 :: irest) with e | vitems <;>
      rw [hm] at hok
    · cases hok
    · obtain ⟨y, hy, hmem⟩ := mapElems_ok_mem hm hx
      refine ⟨y, hy, ?_⟩
      simp only [Except.ok.injEq] at hok
      subst hok
      exact hmem
  · intro ty bn em owners x res hx hok
    simp [validatePartnerReferral, topFields, lookupF, objProp, truthy, typeofJ]
      at hok
    rcases hm : mapElems validateOwner owners with e | ios <;> rw [hm] at hok
    · cases hok
    · obtain ⟨y, hy, hmem⟩ := mapElems_ok_mem hm hx
      refine ⟨y, hy, ?_⟩
      simp only [Except.ok.injEq] at hok
      subst hok
      exact hmem
  · intro em inum ref cc itn itq itcc itv rest
    rfl

/-- C9 witness: `c9_nested_array_all_or_nothing` applied to a concrete
    successful payout, exhibiting the validated element in the output. -/
theorem c9_witness :
    ∃ y, validatePayoutItem (.jobj [("recipient_type", .jstr "EMAIL"),
        ("amount", .jobj [("value", .jstr "1"), ("currency", .jstr "USD")]),
        ("receiver", .jstr "a@b.c")]) = .ok y ∧
      y ∈ [PayoutItem.mk "EMAIL" ⟨"1", "USD"⟩ "a@b.c" none none] :=
  c9_nested_array_all_or_nothing.1 "b1"
    [.jobj [("recipient_type", .jstr "EMAIL"),
      ("amount", .jobj [("value", .jstr "1"), ("currency", .jstr "USD")]),
      ("receiver", .jstr "a@b.c")]]
    (.jobj [("recipient_type", .jstr "EMAIL"),
      ("amount", .jobj [("value", .jstr "1"), ("currency", .jstr "USD")]),
      ("receiver", .jstr "a@b.c")])
    { sender_batch_header := { sender_batch_id := "b1" }
      items := [PayoutItem.mk "EMAIL" ⟨"1", "USD"⟩ "a@b.c" none none] }
    (List.mem_singleton.mpr rfl) rfl

/-- C10 counterexample: `validateReferencedPayout` does *not* leave absent
    `item_id` and `processing_state` absent — the source ternaries default
    an absent `item_id` to the empty string, and an absent
    `processing_state` to a state with an empty-string `status`, so both
    appear (defaulted) in the validated output. -/
theorem c10_counterexample_item_id_defaulted :
    validateReferencedPayout (.jobj [("referenced_payouts", .jarr [
      .jobj [("reference_id", .jstr "ref"), ("reference_type", .jstr "ty"),
             ("payout_amount", .jobj [("currency_code", .jstr "USD"),
                                      ("value", .jstr "5")]),
             ("payout_destination", .jstr "dest")]])])
    = .ok { referenced_payouts := [{
        item_id := "",
        processing_state := { status := .jstr "", reason := none },
        reference_id := "ref", reference_type := "ty",
        payout_amount := ⟨"USD", "5"⟩, payout_destination := "dest" }] } := rfl

/-- C10 (amended): recognized-but-absent fields stay absent (never
    defaulted) in every validator *except* `validateReferencedPayout`,
    which defaults an absent `item_id` to the empty string and an absent
    `processing_state` to a state whose `status` is the empty string. -/
theorem c10_absent_fields_not_defaulted :
    (∀ rid rty cc val pd, validateReferencedPayout (.jobj [("referenced_payouts",
        .jarr [.jobj [("reference_id", .jstr rid), ("reference_type", .jstr rty),
          ("payout_amount", .jobj [("currency_code", .jstr cc), ("value", .jstr val)]),
          ("payout_destination", .jstr pd)]])])
      = .ok { referenced_payouts := [{
          item_id := "",
          processing_state := { status := .jstr "", reason := none },
          reference_id := rid, reference_type := rty,
          payout_amount := ⟨cc, val⟩, payout_destination := pd }] }) ∧
    (∀ cid, validatePaymentToken (.jobj [("customer", .jobj [("id", .jstr cid)]),
        ("payment_source", .jobj [])])
      = .ok { customer := { id := cid, email_address := none }
              payment_source := { card := none, paypal := none } }) ∧
    (∀ intent pm tot cur, validatePayment (.jobj [("intent", .jstr intent),
        ("payer", .jobj [("payment_method", .jstr pm)]),
        ("transactions", .jarr [.jobj [("amount",
          .jobj [("total", .jstr tot), ("currency", .jstr cur)])]])])
      = .ok { intent := intent
              payer := { payment_method := pm, funding_instruments := none }
              transactions := [{ amount := ⟨tot, cur⟩, description := none }] }) ∧
    (∀ sbid rt val cur recv, validatePayout (.jobj [("sender_batch_header",
        .jobj [("sender_batch_id", .jstr sbid)]),
        ("items", .jarr [.jobj [("recipient_type", .jstr rt),
          ("amount", .jobj [("value", .jstr val), ("currency", .jstr cur)]),
          ("receiver", .jstr recv)]])])
      = .ok { sender_batch_header := { sender_batch_id := sbid,
                                       email_subject := none,
                                       recipient_type := none }
              items := [{ recipient_type := rt, amount := ⟨val, cur⟩,
                          receiver := recv, note := none,
                          sender_item_id := none }] }) ∧
    (∀ cc val, validatePayPalOrder (.jobj [("intent", .jstr "AUTHORIZE"),
        ("purchase_units", .jarr [.jobj [("amount",
          .jobj [("currency_code", .jstr cc), ("value", .jstr val)])]])])
      = .ok { intent := "AUTHORIZE"
              purchase_units := [{ amount := ⟨cc, val⟩, description := none,
                                   reference_id := none }] }) ∧
    (∀ nm desc cat, validatePayPalProduct (.jobj [("name", .jstr nm),
        ("description", .jstr desc), ("type", .jstr "SERVICE"),
        ("category", .jstr cat)])
      = .ok { name := nm, description := desc, type := "SERVICE",
              category := cat, image_url := none, home_url := none }) ∧
    (∀ nm, validateWebProfile (.jobj [("name", .jstr nm)])
      = .ok { name := nm
              presentation := { brand_name := none, logo_image := none,
                                locale_code := none }
              input_fields := { no_shipping := none, address_override := none }
              flow_config := { landing_page_type := none,
                               bank_txn_pending_url := none } }) ∧
    validatePaginationParams (.jobj []) = { page_size := none, page := none } := by
  exact ⟨fun rid rty cc val pd => rfl, fun cid => rfl, fun intent pm tot cur => rfl,
         fun sbid rt val cur recv => rfl, fun cc val => rfl,
         fun nm desc cat => rfl, fun nm => rfl, rfl⟩

end PaypalMCP
